import Mathlib

/-!
Verification of the crossley-gate monitor (`src/crossley-gate/main.py`).

The script samples a binary gate-LED input every 0.1 s over 5 s windows
(the inner `while time_count < 5` loop of `read_gate`), classifies the accumulated
on-duration against a band table, and runs a confirmation / notification state
machine on the result.

Embedding conventions:
* All durations are in ticks of 0.1 s (integers), so the `0.1` increments of
  the source become `+ 1`, the window bound `5` seconds becomes `50` ticks,
  and the band table `[[0,0],[2,6],[0.5,1.5]]` (seconds) becomes
  `[(0,0),(20,60),(5,15)]` (ticks).
* Wall-clock times (`time.time()`, `gate_status_wait`) stay in whole seconds
  as `Int`.
* The Pushover call `notify(message)` is modelled as the optional message
  string a cycle emits; its outcome is ignored by the source.
-/

/-- Band table `gate_status_time` of `read_gate`, in ticks of 0.1 s:
`[[0,0],[2,6],[0.5,1.5]]` in seconds in the source. Inclusive on both ends. -/
def gate_status_time : List (Nat × Nat) := [(0, 0), (20, 60), (5, 15)]

/-- `gate_status_options = [0,1,2]` of `read_gate`. -/
def gate_status_options : List Nat := [0, 1, 2]

/-- `gate_status_string` of `read_gate`: first-occurrence notification text. -/
def gate_status_string : List String :=
  ["Gate closed", "Gate OPEN", "Gate has an AC power or battery failure"]

/-- `gate_status_string_repeat` of `read_gate`: repeated-occurrence text. -/
def gate_status_string_repeat : List String :=
  ["Gate closed", "Gate still OPEN", "Gate has an AC power or battery failure"]

/-- `gate_status_report` of `read_gate`: whether a status notifies (0/1 in the
source, `Bool` here). -/
def gate_status_report : List Bool := [false, true, true]

/-- `gate_status_wait` of `read_gate`: per-status re-notification cooldown in
seconds. -/
def gate_status_wait : List Int := [0, 300, 1800]

/-- `gate_status_confirm` of `read_gate`: whether a status must be seen twice
before becoming current (0/1 in the source, `Bool` here). -/
def gate_status_confirm : List Bool := [true, false, true]

/-- The classification loop of `read_gate`:
`for x in range(0,len(gate_status_options)): if led_on_count >= t[x][0] and
led_on_count <= t[x][1]: new_gate_status = gate_status_options[x]`.
Scans the band list in order, carrying the index and the accumulator
(`new_gate_status`), the last matching entry overwriting earlier ones. -/
def classifyScan (led_on_count : Nat) : List (Nat × Nat) → Nat → Nat → Nat
  | [], _, acc => acc
  | b :: rest, x, acc =>
      classifyScan led_on_count rest (x + 1)
        (if b.1 ≤ led_on_count ∧ led_on_count ≤ b.2
         then gate_status_options.getD x 0 else acc)

/-- Classification of the `led_on_count` of a window (in ticks), starting from
the initialisation `new_gate_status = 0` of the source. -/
def classify (led_on_count : Nat) : Nat :=
  classifyScan led_on_count gate_status_time 0 0

/-- The persistent state of the classifier across windows: `gate_status`,
`gate_status_tobeconfirmed` (−1 = none) and `gate_status_lastupdate`. -/
structure MonitorState where
  gate_status : Nat
  gate_status_tobeconfirmed : Int
  gate_status_lastupdate : Int
deriving Repr, DecidableEq

/-- One classification-and-notification step of `read_gate`, given the already
classified `new` status and the current wall-clock time `now` (the source reads
`time.time()` twice in a cycle; both reads are modelled as the same `now`).
Returns the updated state and the notification message sent, if any. -/
def statusStep (st : MonitorState) (new : Nat) (now : Int) :
    MonitorState × Option String :=
  if new = st.gate_status then
    -- gate status has not changed
    if gate_status_report.getD new false = true then
      if 0 ≤ now - (st.gate_status_lastupdate + gate_status_wait.getD new 0) then
        ({ st with gate_status_lastupdate := now },
         some (gate_status_string_repeat.getD new ""))
      else (st, none)
    else (st, none)
  else
    -- gate status has changed
    if gate_status_confirm.getD new false = true then
      if st.gate_status_tobeconfirmed = (new : Int) then
        -- confirmed: commit, notify if reportable, reset tobeconfirmed
        if gate_status_report.getD new false = true then
          (⟨new, -1, now⟩, some (gate_status_string.getD new ""))
        else (⟨new, -1, now⟩, none)
      else ({ st with gate_status_tobeconfirmed := (new : Int) }, none)
    else
      -- no confirmation needed: commit; the source resets tobeconfirmed
      -- only inside the `if gate_status_report[...]` block
      if gate_status_report.getD new false = true then
        (⟨new, -1, now⟩, some (gate_status_string.getD new ""))
      else ({ st with gate_status := new, gate_status_lastupdate := now }, none)

/-- One full cycle of the outer loop of `read_gate`: classify the
`led_on_count` of the window and run the status step. -/
def gateCycle (st : MonitorState) (led_on_count : Nat) (now : Int) :
    MonitorState × Option String :=
  statusStep st (classify led_on_count) now

/-- The run of the classifier from its initial state
(`gate_status = 0`, `gate_status_tobeconfirmed = -1`,
`gate_status_lastupdate = time.time()` = `t0`), fed the per-window
`led_on_count` sequence `d` and per-window clock readings `tm`. -/
def gateRun (d : Nat → Nat) (tm : Nat → Int) (t0 : Int) : Nat → MonitorState
  | 0 => ⟨0, -1, t0⟩
  | n + 1 => (gateCycle (gateRun d tm t0 n) (d n) (tm n)).1

/-- The sampling window state of the inner loop of `read_gate`: `time_count` (an
`Int`, since the glitch reset sets it to −0.1 s = −1 tick) and `led_on_count`. -/
structure SampleWindow where
  time_count : Int
  led_on_count : Nat
deriving Repr, DecidableEq

/-- One tick of the inner `while time_count < 5` loop of `read_gate`, given the
sampled input bit: if asserted, either the glitch reset (`time_count = -0.1`
when `time_count > 0 and led_on_count == 0`) or `led_on_count += 0.1`;
then unconditionally `time_count += 0.1`. -/
def sampleTick (w : SampleWindow) (asserted : Bool) : SampleWindow :=
  let w1 :=
    if asserted then
      if 0 < w.time_count ∧ w.led_on_count = 0 then
        { w with time_count := -1 }
      else
        { w with led_on_count := w.led_on_count + 1 }
    else w
  { w1 with time_count := w1.time_count + 1 }

/-- The window state after `n` ticks of input sequence `s`, from the fresh
window (`time_count = 0`, `led_on_count = 0`). -/
def sampleState (s : Nat → Bool) : Nat → SampleWindow
  | 0 => ⟨0, 0⟩
  | n + 1 => sampleTick (sampleState s n) (s n)

/-- The inner loop exits after tick `n` when `time_count ≥ 5` seconds
(50 ticks). -/
def windowExits (s : Nat → Bool) (n : Nat) : Prop :=
  50 ≤ (sampleState s n).time_count

/-- The glitch reset fires at tick `n` of input `s`. -/
def resetFires (s : Nat → Bool) (n : Nat) : Prop :=
  s n = true ∧ 0 < (sampleState s n).time_count ∧
    (sampleState s n).led_on_count = 0

/-- A duration matches the band at index `x`. -/
def bandMatches (d x : Nat) : Prop :=
  ∃ lo hi, gate_status_time.get? x = some (lo, hi) ∧ lo ≤ d ∧ d ≤ hi

instance (d x : Nat) : Decidable (bandMatches d x) := by
  unfold bandMatches
  cases gate_status_time.get? x with
  | none => exact .isFalse (by simp)
  | some b =>
      exact decidable_of_iff (b.1 ≤ d ∧ d ≤ b.2)
        (by cases b; constructor
            · rintro ⟨h1, h2⟩; exact ⟨_, _, rfl, h1, h2⟩
            · rintro ⟨lo, hi, heq, h1, h2⟩
              cases heq; exact ⟨h1, h2⟩)

/-- An input that alternates unasserted / asserted forever: tick `n` reads
asserted exactly when `n` is odd. -/
def altTick : Nat → Bool := fun n => n % 2 == 1

/-- A window sequence whose classifications are `2, 0, 2, 2, ...`:
`led_on_count` is 5 ticks (0.5 s, band `[0.5, 1.5]` s, status 2) in every
window except window 1, where it is 0 ticks (band `[0, 0]`, status 0). -/
def dSeqC1 : Nat → Nat := fun n => if n = 1 then 0 else 5

/-- The classifier run on `dSeqC1` with all clock readings 0. -/
def runC1 : Nat → MonitorState := gateRun dSeqC1 (fun _ => 0) 0

/-- The implicit classifier-state invariant: `gate_status_tobeconfirmed` is
either −1 (none) or a status whose confirm flag is set, and it never equals
the current `gate_status`. -/
def StateInv (st : MonitorState) : Prop :=
  (st.gate_status_tobeconfirmed = -1 ∨
    ∃ c : Nat, st.gate_status_tobeconfirmed = (c : Int) ∧
      gate_status_confirm.getD c false = true) ∧
  st.gate_status_tobeconfirmed ≠ (st.gate_status : Int)

/-! ## Classification lemmas -/

/-- Closed form of `classify` over the concrete band table: the scan visits
bands in array order, so band 2 overrides band 1 overrides band 0. -/
theorem classify_eq (d : Nat) :
    classify d =
      if 5 ≤ d ∧ d ≤ 15 then 2 else if 20 ≤ d ∧ d ≤ 60 then 1 else 0 := by
  simp only [classify, gate_status_time, classifyScan, gate_status_options,
    List.getD, List.get?, Option.getD_some]
  split_ifs <;> omega

theorem classify_cases (d : Nat) :
    classify d = 0 ∨ classify d = 1 ∨ classify d = 2 := by
  rw [classify_eq]; split_ifs <;> simp

/-- A duration matching no band classifies to the initial value `0`. -/
theorem classify_of_no_match (d : Nat) (h : ∀ x, ¬ bandMatches d x) :
    classify d = 0 := by
  rw [classify_eq]
  have h1 := h 1
  have h2 := h 2
  simp only [bandMatches, gate_status_time, List.get?] at h1 h2
  rw [if_neg, if_neg]
  · intro ⟨a, b⟩; exact h1 ⟨20, 60, rfl, a, b⟩
  · intro ⟨a, b⟩; exact h2 ⟨5, 15, rfl, a, b⟩

/-! ## Sampler lemmas -/

theorem sampleState_succ (s : Nat → Bool) (n : Nat) :
    sampleState s (n + 1) = sampleTick (sampleState s n) (s n) := rfl

/-- An asserted tick on which the glitch guard holds: `time_count` is set to
`-1` and then incremented to `0`; `led_on_count` is not incremented. -/
theorem sampleTick_true_reset (w : SampleWindow)
    (h : 0 < w.time_count ∧ w.led_on_count = 0) :
    sampleTick w true = ⟨0, w.led_on_count⟩ := by
  simp only [sampleTick, if_pos h, if_true]
  congr 1

theorem sampleTick_true_inc (w : SampleWindow)
    (h : ¬ (0 < w.time_count ∧ w.led_on_count = 0)) :
    sampleTick w true = ⟨w.time_count + 1, w.led_on_count + 1⟩ := by
  simp only [sampleTick, if_neg h, if_true]

theorem sampleTick_false (w : SampleWindow) :
    sampleTick w false = ⟨w.time_count + 1, w.led_on_count⟩ := by
  simp only [sampleTick, Bool.false_eq_true, if_false]

/-- `time_count` is nonnegative at the end of every tick. -/
theorem time_count_nonneg (s : Nat → Bool) (n : Nat) :
    0 ≤ (sampleState s n).time_count := by
  induction n with
  | zero => exact le_refl 0
  | succ n ih =>
      rw [sampleState_succ]
      cases hs : s n
      · rw [sampleTick_false]; dsimp only; omega
      · by_cases h : 0 < (sampleState s n).time_count ∧
          (sampleState s n).led_on_count = 0
        · rw [sampleTick_true_reset _ h]
        · rw [sampleTick_true_inc _ h]; dsimp only; omega

/-- The accumulated asserted time never exceeds the elapsed time
(`assertedDuration ≤ elapsed`), at the end of every tick. -/
theorem led_le_time (s : Nat → Bool) (n : Nat) :
    ((sampleState s n).led_on_count : Int) ≤ (sampleState s n).time_count := by
  induction n with
  | zero => exact le_refl 0
  | succ n ih =>
      rw [sampleState_succ]
      cases hs : s n
      · rw [sampleTick_false]; dsimp only; omega
      · by_cases h : 0 < (sampleState s n).time_count ∧
          (sampleState s n).led_on_count = 0
        · rw [sampleTick_true_reset _ h]; simp [h.2]
        · rw [sampleTick_true_inc _ h]; dsimp only; push_cast; push_cast at ih; omega

/-- Each tick either advances `time_count` by one tick or (on a glitch reset)
returns it to `0`, leaving `led_on_count` at `0`. -/
theorem time_count_step (s : Nat → Bool) (n : Nat) :
    (sampleState s (n + 1)).time_count = (sampleState s n).time_count + 1 ∨
      ((sampleState s (n + 1)).time_count = 0 ∧
        (sampleState s (n + 1)).led_on_count = 0) := by
  rw [sampleState_succ]
  cases hs : s n
  · rw [sampleTick_false]; left; rfl
  · by_cases h : 0 < (sampleState s n).time_count ∧
      (sampleState s n).led_on_count = 0
    · rw [sampleTick_true_reset _ h]; right; exact ⟨rfl, h.2⟩
    · rw [sampleTick_true_inc _ h]; left; rfl

/-- When the glitch reset does not fire at tick `n`, `time_count` advances by
exactly one tick. -/
theorem time_count_step_of_no_reset (s : Nat → Bool) (n : Nat)
    (h : ¬ resetFires s n) :
    (sampleState s (n + 1)).time_count = (sampleState s n).time_count + 1 := by
  rw [sampleState_succ]
  unfold resetFires at h
  cases hs : s n
  · rw [sampleTick_false]
  · rw [sampleTick_true_inc]
    intro hg
    exact h ⟨hs, hg.1, hg.2⟩

/-- After the last glitch reset, `time_count` grows linearly. -/
theorem time_count_grows (s : Nat → Bool) (N : Nat)
    (hN : ∀ n, N ≤ n → ¬ resetFires s n) (k : Nat) :
    (sampleState s N).time_count + k ≤ (sampleState s (N + k)).time_count := by
  induction k with
  | zero => simp
  | succ k ih =>
      have hstep := time_count_step_of_no_reset s (N + k)
        (hN (N + k) (Nat.le_add_right N k))
      rw [show N + (k + 1) = (N + k) + 1 from rfl, hstep]
      push_cast
      omega


/-- Under the alternating input, the window state is periodic with period two:
every odd tick re-fires the glitch reset, so `time_count` never grows. -/
theorem altTick_periodic (k : Nat) :
    sampleState altTick (2 * k) = ⟨0, 0⟩ ∧
      sampleState altTick (2 * k + 1) = ⟨1, 0⟩ := by
  induction k with
  | zero => exact ⟨rfl, by decide⟩
  | succ k ih =>
      obtain ⟨ih0, ih1⟩ := ih
      have halt1 : altTick (2 * k + 1) = true := by
        simp only [altTick, beq_iff_eq]
        omega
      have halt2 : altTick (2 * k + 2) = false := by
        simp only [altTick, beq_eq_false_iff_ne, ne_eq]
        omega
      have h0 : sampleState altTick (2 * (k + 1)) = ⟨0, 0⟩ := by
        rw [show 2 * (k + 1) = (2 * k + 1) + 1 by ring, sampleState_succ,
          ih1, halt1, sampleTick_true_reset _ (by constructor <;> decide)]
      refine ⟨h0, ?_⟩
      rw [show 2 * (k + 1) + 1 = (2 * (k + 1)) + 1 from rfl, sampleState_succ,
        h0, show altTick (2 * (k + 1)) = false from halt2, sampleTick_false]
      decide

/-- C4: refuted as stated. The claim asserts the per-window loop terminates for
every binary input sequence, but under the input that alternates
unasserted / asserted on every tick, the glitch reset fires on every odd tick,
`time_count` never exceeds one tick, and `time_count ≥ 5.0` time-units is never
reached: the loop runs forever. -/
theorem claim_C4_counterexample : ¬ ∃ n, windowExits altTick n := by
  rintro ⟨n, hn⟩
  unfold windowExits at hn
  obtain ⟨k, rfl | rfl⟩ := Nat.even_or_odd' n
  · rw [(altTick_periodic k).1] at hn
    exact absurd hn (by decide)
  · rw [(altTick_periodic k).2] at hn
    exact absurd hn (by decide)

/-- C4 (amended): if the glitch reset fires at only finitely many ticks (all
before tick `N`), the per-window loop terminates; and at the first tick on
which the exit condition `time_count ≥ 5.0` time-units holds, `time_count` is
exactly `5.0` time-units and the returned `assertedDuration` lies in
`[0, 5.0]` time-units at 0.1 resolution. -/
theorem claim_C4_amended (s : Nat → Bool) (N : Nat)
    (hN : ∀ n, N ≤ n → ¬ resetFires s n) :
    (∃ n, windowExits s n) ∧
      (∀ n, windowExits s n → (∀ m, m < n → ¬ windowExits s m) →
        (sampleState s n).time_count = 50 ∧
          (sampleState s n).led_on_count ≤ 50) := by
  constructor
  · refine ⟨N + 50, ?_⟩
    unfold windowExits
    have h1 := time_count_grows s N hN 50
    have h2 := time_count_nonneg s N
    omega
  · intro n hn hfirst
    unfold windowExits at hn hfirst
    obtain _ | n := n
    · have h0 : (sampleState s 0).time_count = 0 := rfl
      omega
    · have hprev : (sampleState s n).time_count < 50 := by
        have := hfirst n (Nat.lt_succ_self n)
        omega
      have hstep := time_count_step s n
      have htc : (sampleState s (n + 1)).time_count = 50 := by
        rcases hstep with h | ⟨h, _⟩ <;> omega
      have hled := led_le_time s (n + 1)
      refine ⟨htc, ?_⟩
      omega

set_option maxRecDepth 8000 in
/-- C4 (witness): the constantly-unasserted input never fires the glitch reset,
so the loop terminates; tick 50 is the first exit tick, where `time_count` is
exactly 50 ticks and `led_on_count` is at most 50 ticks. -/
theorem claim_C4_witness :
    (∃ n, windowExits (fun _ => false) n) ∧
      ((sampleState (fun _ => false) 50).time_count = 50 ∧
        (sampleState (fun _ => false) 50).led_on_count ≤ 50) := by
  have h := claim_C4_amended (fun _ => false) 0
    (fun n _ hr => by simp [resetFires] at hr)
  refine ⟨h.1, h.2 50 ?_ ?_⟩
  · unfold windowExits
    decide
  · unfold windowExits
    decide

/-- C9: within every sampling window and for every binary input sequence, the
invariant `assertedDuration ≤ elapsed` (`led_on_count ≤ time_count`) holds at
the end of every tick of the sampler loop, including ticks on which the
glitch-rejection reset of `time_count` fires. -/
theorem claim_C9_duration_le_elapsed (s : Nat → Bool) (n : Nat) :
    ((sampleState s n).led_on_count : Int) ≤ (sampleState s n).time_count :=
  led_le_time s n

/-- C7: on an asserted tick, if `elapsed > 0` and `assertedDuration = 0` the
glitch reset fires: `time_count` is set to −1 tick so its own increment brings
it back to 0, and `led_on_count` is not incremented; on every other asserted
tick `led_on_count` is incremented by one tick along with `time_count`. -/
theorem claim_C7_glitch_reset (w : SampleWindow) :
    (0 < w.time_count → w.led_on_count = 0 →
      sampleTick w true = ⟨0, w.led_on_count⟩) ∧
    (¬ (0 < w.time_count ∧ w.led_on_count = 0) →
      sampleTick w true = ⟨w.time_count + 1, w.led_on_count + 1⟩) :=
  ⟨fun h1 h2 => sampleTick_true_reset w ⟨h1, h2⟩, fun h => sampleTick_true_inc w h⟩

/-- C7 (witness): the reset branch at `elapsed = 3` ticks, `assertedDuration =
0`, and the increment branch at `elapsed = 5`, `assertedDuration = 2`. -/
theorem claim_C7_witness :
    sampleTick ⟨3, 0⟩ true = ⟨0, 0⟩ ∧ sampleTick ⟨5, 2⟩ true = ⟨6, 3⟩ :=
  ⟨(claim_C7_glitch_reset ⟨3, 0⟩).1 (by decide) rfl,
   (claim_C7_glitch_reset ⟨5, 2⟩).2 (by decide)⟩

/-- C5: classification scans the status table in array order and selects the
last entry whose inclusive band contains `assertedDuration`: whenever band `x`
matches `d` and every matching band has index at most `x` (in particular when
`d` lies strictly inside exactly one band, or when `x` is the highest-indexed
of several overlapping matching bands), the classified status is `x`. -/
theorem claim_C5_classify_last_match (d x : Nat)
    (hx : bandMatches d x)
    (hmax : ∀ y, bandMatches d y → y ≤ x) :
    classify d = x := by
  obtain ⟨lo, hi, hget, hlo, hhi⟩ := hx
  obtain _ | _ | _ | x := x
  · simp only [gate_status_time, List.get?, Option.some.injEq, Prod.mk.injEq] at hget
    obtain ⟨h1, h2⟩ := hget
    rw [classify_eq]
    split_ifs <;> omega
  · simp only [gate_status_time, List.get?, Option.some.injEq, Prod.mk.injEq] at hget
    obtain ⟨h1, h2⟩ := hget
    rw [classify_eq]
    split_ifs <;> omega
  · simp only [gate_status_time, List.get?, Option.some.injEq, Prod.mk.injEq] at hget
    obtain ⟨h1, h2⟩ := hget
    rw [classify_eq]
    split_ifs <;> omega
  · simp [gate_status_time, List.get?] at hget

/-- C5 (witness): `d = 25` ticks (2.5 s) lies only in band 1 (`[2,6]` s), and
is classified as status 1. -/
theorem claim_C5_witness :
    bandMatches 25 1 ∧ (∀ y, bandMatches 25 y → y ≤ 1) ∧ classify 25 = 1 := by
  have hmax : ∀ y, bandMatches 25 y → y ≤ 1 := by
    intro y hy
    obtain ⟨lo, hi, hget, hlo, hhi⟩ := hy
    obtain _ | _ | _ | y := y
    · omega
    · omega
    · simp only [gate_status_time, List.get?, Option.some.injEq,
        Prod.mk.injEq] at hget
      omega
    · simp [gate_status_time, List.get?] at hget
  exact ⟨by decide, hmax, claim_C5_classify_last_match 25 1 (by decide) hmax⟩

/-- C3: in every cycle where the newly classified status differs from
`gate_status` and does not require confirmation, the classifier commits
immediately: `gate_status` becomes the new status, `gate_status_lastupdate`
becomes `now`, the first-occurrence notification is sent, and
`gate_status_tobeconfirmed` is −1 (none) afterwards. -/
theorem claim_C3_unconfirmed_commit (st : MonitorState) (d : Nat) (now : Int)
    (hne : classify d ≠ st.gate_status)
    (hconf : gate_status_confirm.getD (classify d) false = false) :
    (gateCycle st d now).1.gate_status = classify d ∧
    (gateCycle st d now).1.gate_status_lastupdate = now ∧
    (gateCycle st d now).1.gate_status_tobeconfirmed = -1 ∧
    (gateCycle st d now).2 = some (gate_status_string.getD (classify d) "") := by
  rcases classify_cases d with h | h | h <;> rw [h] at hne hconf ⊢ <;>
    unfold gateCycle statusStep <;> rw [h]
  · simp [gate_status_confirm] at hconf
  · rw [if_neg hne]
    simp [gate_status_confirm, gate_status_report, gate_status_string]
  · simp [gate_status_confirm] at hconf

/-- C8: a cycle whose classified status has the report (alertable) flag unset
never invokes the alert collaborator — neither on a committed status change
nor while remaining the unchanged current status. -/
theorem claim_C8_nonalertable_no_alert (st : MonitorState) (d : Nat) (now : Int)
    (h : gate_status_report.getD (classify d) false = false) :
    (gateCycle st d now).2 = none := by
  unfold gateCycle statusStep
  split_ifs <;> simp_all

/-- C2 (amended): a `led_on_count` lying in none of the configured duration
bands is classified as the default status 0 (gate closed), and the cycle
behaves exactly as if the window had classified to status 0 — not as if it
had classified to the existing current status. -/
theorem claim_C2_amended (st : MonitorState) (d : Nat) (now : Int)
    (h : ∀ x, ¬ bandMatches d x) :
    classify d = 0 ∧ gateCycle st d now = gateCycle st 0 now := by
  have h0 := classify_of_no_match d h
  refine ⟨h0, ?_⟩
  unfold gateCycle
  rw [h0, show classify 0 = 0 from rfl]

/-- C6: while `gate_status` is unchanged, a notification is sent exactly when
the status is reportable and `now ≥ gate_status_lastupdate + wait`, using the
repeated-occurrence label and setting `gate_status_lastupdate := now` (hence
at most one notification per cooldown interval for an unchanged status), and
otherwise the cycle leaves the state untouched; and on every committed status
change to a reportable status, the first-occurrence notification is sent
immediately, with no cooldown condition. -/
theorem claim_C6_alert_throttling (st : MonitorState) (d : Nat) (now : Int) :
    (classify d = st.gate_status →
      ((gate_status_report.getD st.gate_status false = true ∧
          st.gate_status_lastupdate + gate_status_wait.getD st.gate_status 0 ≤ now) →
        gateCycle st d now =
          ({ st with gate_status_lastupdate := now },
            some (gate_status_string_repeat.getD st.gate_status ""))) ∧
      (¬ (gate_status_report.getD st.gate_status false = true ∧
          st.gate_status_lastupdate + gate_status_wait.getD st.gate_status 0 ≤ now) →
        gateCycle st d now = (st, none))) ∧
    ((gateCycle st d now).1.gate_status ≠ st.gate_status →
      gate_status_report.getD ((gateCycle st d now).1.gate_status) false = true →
      (gateCycle st d now).2 =
        some (gate_status_string.getD ((gateCycle st d now).1.gate_status) "")) := by
  constructor
  · intro hu
    unfold gateCycle statusStep
    rw [hu, if_pos rfl]
    constructor
    · rintro ⟨hrep, hdue⟩
      rw [if_pos hrep, if_pos (by omega)]
    · intro hnot
      by_cases hrep : gate_status_report.getD st.gate_status false = true
      · have hdue : ¬ (st.gate_status_lastupdate +
            gate_status_wait.getD st.gate_status 0 ≤ now) :=
          fun hd => hnot ⟨hrep, hd⟩
        rw [if_pos hrep, if_neg (by omega)]
      · rw [if_neg hrep]
  · intro hch hrep
    unfold gateCycle statusStep at *
    split_ifs at * with h1 h2 h3 h4 h5 h6 h7 <;> simp_all

/-- C10: implicit classifier-state invariant: `gate_status_tobeconfirmed` is
either −1 (none) or a status whose requires-confirmation flag is set, and it
never equals the current `gate_status`; the invariant holds in the initial
state, is preserved by every cycle, and therefore holds along every run. -/
theorem claim_C10_pending_invariant :
    (∀ t0 : Int, StateInv ⟨0, -1, t0⟩) ∧
    (∀ (st : MonitorState) (d : Nat) (now : Int),
      StateInv st → StateInv (gateCycle st d now).1) ∧
    (∀ (d : Nat → Nat) (tm : Nat → Int) (t0 : Int) (n : Nat),
      StateInv (gateRun d tm t0 n)) := by
  have hinit : ∀ t0 : Int, StateInv ⟨0, -1, t0⟩ := by
    intro t0
    exact ⟨Or.inl rfl, by dsimp only; decide⟩
  have hpres : ∀ (st : MonitorState) (d : Nat) (now : Int),
      StateInv st → StateInv (gateCycle st d now).1 := by
    intro st d now hinv
    obtain ⟨hopt, hne⟩ := hinv
    unfold gateCycle statusStep
    by_cases h1 : classify d = st.gate_status
    · rw [if_pos h1]
      split_ifs <;> exact ⟨hopt, hne⟩
    · rw [if_neg h1]
      by_cases hcf : gate_status_confirm.getD (classify d) false = true
      · rw [if_pos hcf]
        by_cases hpend : st.gate_status_tobeconfirmed = ((classify d : Nat) : Int)
        · rw [if_pos hpend]
          split_ifs <;>
            (refine ⟨Or.inl rfl, ?_⟩
             dsimp only
             have := Int.natCast_nonneg (classify d)
             omega)
        · rw [if_neg hpend]
          refine ⟨Or.inr ⟨classify d, rfl, hcf⟩, ?_⟩
          dsimp only
          exact fun hc => h1 (by exact_mod_cast hc)
      · rw [if_neg hcf]
        by_cases hrep : gate_status_report.getD (classify d) false = true
        · rw [if_pos hrep]
          refine ⟨Or.inl rfl, ?_⟩
          dsimp only
          have := Int.natCast_nonneg (classify d)
          omega
        · rw [if_neg hrep]
          refine ⟨hopt, ?_⟩
          dsimp only
          rcases hopt with hp | ⟨c, hc, hcf2⟩
          · rw [hp]
            have := Int.natCast_nonneg (classify d)
            omega
          · rw [hc]
            intro hcast
            have hceq : c = classify d := by exact_mod_cast hcast
            rw [hceq] at hcf2
            exact hcf hcf2
  refine ⟨hinit, hpres, ?_⟩
  intro d tm t0 n
  induction n with
  | zero => exact hinit t0
  | succ n ih => exact hpres _ _ _ ih

/-- Across one step, `gate_status_tobeconfirmed` is preserved, cleared to −1,
or set to the newly classified status. -/
theorem statusStep_pending (st : MonitorState) (new : Nat) (now : Int) :
    (statusStep st new now).1.gate_status_tobeconfirmed =
        st.gate_status_tobeconfirmed ∨
      (statusStep st new now).1.gate_status_tobeconfirmed = -1 ∨
      (statusStep st new now).1.gate_status_tobeconfirmed = (new : Int) := by
  unfold statusStep
  split_ifs <;> simp

/-- If a step changes `gate_status`, the new value is the classified status;
and when that status requires confirmation, the step can only have been the
confirmed-commit branch, so the pending value equalled it beforehand. -/
theorem statusStep_commit (st : MonitorState) (new : Nat) (now : Int)
    (hch : (statusStep st new now).1.gate_status ≠ st.gate_status) :
    (statusStep st new now).1.gate_status = new ∧
      (gate_status_confirm.getD new false = true →
        st.gate_status_tobeconfirmed = (new : Int)) := by
  unfold statusStep at *
  split_ifs at * with h1 h2 h3 h4 h5
  all_goals simp_all

/-- A non-(−1) pending value always originates from the classification of an
earlier window. -/
theorem pending_history (d : Nat → Nat) (tm : Nat → Int) (t0 : Int) (n : Nat)
    (h : (gateRun d tm t0 n).gate_status_tobeconfirmed ≠ -1) :
    ∃ m, m < n ∧
      ((classify (d m) : Nat) : Int) =
        (gateRun d tm t0 n).gate_status_tobeconfirmed := by
  induction n with
  | zero => exact absurd rfl h
  | succ n ih =>
      have hdef : gateRun d tm t0 (n + 1) =
          (statusStep (gateRun d tm t0 n) (classify (d n)) (tm n)).1 := rfl
      rcases statusStep_pending (gateRun d tm t0 n) (classify (d n)) (tm n)
        with hp | hp | hp
      · rw [hdef] at h ⊢
        rw [hp] at h ⊢
        obtain ⟨m, hm, hcl⟩ := ih h
        exact ⟨m, Nat.lt_succ_of_lt hm, hcl⟩
      · rw [hdef] at h
        exact absurd hp h
      · rw [hdef, hp]
        exact ⟨n, Nat.lt_succ_self n, rfl⟩

/-- An unchanged classification leaves `gate_status` unchanged. -/
theorem statusStep_unchanged (st : MonitorState) (new : Nat) (now : Int)
    (h : new = st.gate_status) :
    (statusStep st new now).1.gate_status = st.gate_status := by
  unfold statusStep
  rw [if_pos h]
  split_ifs <;> rfl

/-- The confirmed-commit branch. -/
theorem statusStep_confirm_commit (st : MonitorState) (new : Nat) (now : Int)
    (hne : new ≠ st.gate_status)
    (hconf : gate_status_confirm.getD new false = true)
    (hpend : st.gate_status_tobeconfirmed = (new : Int)) :
    (statusStep st new now).1 = ⟨new, -1, now⟩ := by
  unfold statusStep
  rw [if_neg hne, if_pos hconf, if_pos hpend]
  split_ifs <;> rfl

/-- The propose-for-confirmation branch. -/
theorem statusStep_pending_set (st : MonitorState) (new : Nat) (now : Int)
    (hne : new ≠ st.gate_status)
    (hconf : gate_status_confirm.getD new false = true)
    (hpend : st.gate_status_tobeconfirmed ≠ (new : Int)) :
    statusStep st new now = ({ st with gate_status_tobeconfirmed := (new : Int) }, none) := by
  unfold statusStep
  rw [if_neg hne, if_pos hconf, if_neg hpend]

/-- An unconfirmed status commits in one step. -/
theorem statusStep_noconfirm_status (st : MonitorState) (new : Nat) (now : Int)
    (hne : new ≠ st.gate_status)
    (hconf : ¬ gate_status_confirm.getD new false = true) :
    (statusStep st new now).1.gate_status = new := by
  unfold statusStep
  rw [if_neg hne, if_neg hconf]
  split_ifs <;> rfl

/-- Two consecutive identical classifications always make that status current. -/
theorem statusStep_two_consecutive (st : MonitorState) (c : Nat) (n1 n2 : Int) :
    (statusStep (statusStep st c n1).1 c n2).1.gate_status = c := by
  by_cases e1 : c = st.gate_status
  · have h1 := statusStep_unchanged st c n1 e1
    have h2 := statusStep_unchanged (statusStep st c n1).1 c n2 (by rw [h1, e1])
    rw [h2, h1, e1]
  · by_cases e2 : gate_status_confirm.getD c false = true
    · by_cases e3 : st.gate_status_tobeconfirmed = (c : Int)
      · have h1 := statusStep_confirm_commit st c n1 e1 e2 e3
        have h2 := statusStep_unchanged (statusStep st c n1).1 c n2 (by rw [h1])
        rw [h2, h1]
      · have h1 := statusStep_pending_set st c n1 e1 e2 e3
        have h2 := statusStep_confirm_commit (statusStep st c n1).1 c n2
          (by rw [h1]; exact e1) e2 (by rw [h1])
        rw [h2]
    · have h1 := statusStep_noconfirm_status st c n1 e1 e2
      have h2 := statusStep_unchanged (statusStep st c n1).1 c n2 (by rw [h1])
      rw [h2, h1]

/-- C1 (amended): a status requiring confirmation never becomes `gate_status`
after a single matching window — a window classifying to a non-current
confirm-status not already pending leaves `gate_status` unchanged and sets
`gate_status_tobeconfirmed` to that status (overwriting any different pending
value, never resetting it to none); two consecutive windows classifying to the
same status always make it current; and every committed change to a
confirm-status happens on a window classifying to it with at least one
earlier window that also classified to it (the matching windows need not be
consecutive: intervening windows classifying to the current status leave the
pending proposal untouched). -/
theorem claim_C1_confirmation_amended :
    (∀ (st : MonitorState) (d : Nat) (now : Int),
      classify d ≠ st.gate_status →
      gate_status_confirm.getD (classify d) false = true →
      st.gate_status_tobeconfirmed ≠ ((classify d : Nat) : Int) →
      (gateCycle st d now).1.gate_status = st.gate_status ∧
        (gateCycle st d now).1.gate_status_tobeconfirmed =
          ((classify d : Nat) : Int) ∧
        (gateCycle st d now).2 = none) ∧
    (∀ (st : MonitorState) (d1 d2 : Nat) (n1 n2 : Int),
      classify d1 = classify d2 →
      (gateCycle (gateCycle st d1 n1).1 d2 n2).1.gate_status = classify d2) ∧
    (∀ (d : Nat → Nat) (tm : Nat → Int) (t0 : Int) (n : Nat),
      (gateRun d tm t0 (n + 1)).gate_status ≠ (gateRun d tm t0 n).gate_status →
      gate_status_confirm.getD
        ((gateRun d tm t0 (n + 1)).gate_status) false = true →
      classify (d n) = (gateRun d tm t0 (n + 1)).gate_status ∧
        ∃ m, m < n ∧ classify (d m) = (gateRun d tm t0 (n + 1)).gate_status) := by
  refine ⟨?_, ?_, ?_⟩
  · intro st d now hne hconf hpend
    unfold gateCycle
    rw [statusStep_pending_set st (classify d) now hne hconf hpend]
    exact ⟨rfl, rfl, rfl⟩
  · intro st d1 d2 n1 n2 h
    unfold gateCycle
    rw [← h]
    exact statusStep_two_consecutive st (classify d1) n1 n2
  · intro d tm t0 n hch hconf
    have hdef : gateRun d tm t0 (n + 1) =
        (statusStep (gateRun d tm t0 n) (classify (d n)) (tm n)).1 := rfl
    rw [hdef] at hch hconf ⊢
    obtain ⟨hstat, hpend⟩ := statusStep_commit _ _ _ hch
    rw [hstat] at hconf ⊢
    have hpe := hpend hconf
    have hneg : (gateRun d tm t0 n).gate_status_tobeconfirmed ≠ -1 := by
      rw [hpe]
      have := Int.natCast_nonneg (classify (d n))
      omega
    obtain ⟨m, hm, hcl⟩ := pending_history d tm t0 n hneg
    rw [hpe] at hcl
    exact ⟨rfl, m, hm, by exact_mod_cast hcl⟩

/-- C1 (counterexample): under the window sequence classifying to `2, 0, 2`,
the confirmation-required status 2 becomes current at window 2 even though
the intervening window 1 classified differently (to 0, the current status),
and that intervening window did not reset `gate_status_tobeconfirmed` (still
2), refuting the claim that commitment requires two consecutive matching
windows with no intervening differing classification. -/
theorem claim_C1_counterexample :
    (runC1 2).gate_status = 0 ∧ (runC1 3).gate_status = 2 ∧
      gate_status_confirm.getD 2 false = true ∧
      classify (dSeqC1 2) = 2 ∧ classify (dSeqC1 1) = 0 ∧
      (runC1 2).gate_status_tobeconfirmed = 2 := by
  decide

/-- C1 (witness): the amended claim applied at concrete inputs: a single
window classifying to status 2 from the initial state only makes it pending;
two consecutive such windows commit it; and the commit at window 2 of the
`2, 0, 2` run is preceded by an earlier matching window. -/
theorem claim_C1_witness :
    ((gateCycle ⟨0, -1, 0⟩ 5 0).1.gate_status = 0 ∧
      (gateCycle ⟨0, -1, 0⟩ 5 0).1.gate_status_tobeconfirmed = 2 ∧
      (gateCycle ⟨0, -1, 0⟩ 5 0).2 = none) ∧
    (gateCycle (gateCycle ⟨0, -1, 0⟩ 5 0).1 5 7).1.gate_status = 2 ∧
    (classify (dSeqC1 2) = (runC1 3).gate_status ∧
      ∃ m, m < 2 ∧ classify (dSeqC1 m) = (runC1 3).gate_status) := by
  refine ⟨?_, ?_, ?_⟩
  · have h := claim_C1_confirmation_amended.1 ⟨0, -1, 0⟩ 5 0
      (by decide) (by decide) (by decide)
    exact ⟨h.1, by rw [h.2.1]; decide, h.2.2⟩
  · have h := claim_C1_confirmation_amended.2.1 ⟨0, -1, 0⟩ 5 5 0 7 rfl
    rw [h]; decide
  · exact claim_C1_confirmation_amended.2.2 dSeqC1 (fun _ => 0) 0 2
      (by decide) (by decide)

/-- No band of the configured table contains a duration of 16 ticks (1.6 s). -/
theorem no_band_matches_16 : ∀ x, ¬ bandMatches 16 x := by
  intro x hx
  obtain ⟨lo, hi, hget, h1, h2⟩ := hx
  obtain _ | _ | _ | x := x
  · simp only [gate_status_time, List.get?, Option.some.injEq,
      Prod.mk.injEq] at hget
    omega
  · simp only [gate_status_time, List.get?, Option.some.injEq,
      Prod.mk.injEq] at hget
    omega
  · simp only [gate_status_time, List.get?, Option.some.injEq,
      Prod.mk.injEq] at hget
    omega
  · simp [gate_status_time, List.get?] at hget

/-- C2 (counterexample): no band contains 16 ticks (1.6 s). In the reachable
state where `gate_status = 1` (one cycle with `led_on_count = 25` from the
initial state), a window with `led_on_count = 16` does not behave as a window
classifying to the current status (`led_on_count = 25`): it sets
`gate_status_tobeconfirmed` to 0, whereas the unchanged-status cycle leaves
it at −1 (and sends the repeat notification). -/
theorem claim_C2_counterexample :
    (∀ x, ¬ bandMatches 16 x) ∧
      classify 25 = 1 ∧
      gateCycle ⟨0, -1, 0⟩ 25 0 = (⟨1, -1, 0⟩, some "Gate OPEN") ∧
      gateCycle ⟨1, -1, 0⟩ 16 1000 ≠ gateCycle ⟨1, -1, 0⟩ 25 1000 ∧
      (gateCycle ⟨1, -1, 0⟩ 16 1000).1.gate_status_tobeconfirmed = 0 ∧
      (gateCycle ⟨1, -1, 0⟩ 25 1000).1.gate_status_tobeconfirmed = -1 :=
  ⟨no_band_matches_16, by decide, by decide, by decide, by decide, by decide⟩

/-- C2 (witness): the amended claim at `led_on_count = 16`, which matches no
band: the cycle equals the cycle of a window classifying to status 0. -/
theorem claim_C2_witness :
    classify 16 = 0 ∧
      gateCycle ⟨1, -1, 0⟩ 16 1000 = gateCycle ⟨1, -1, 0⟩ 0 1000 :=
  claim_C2_amended ⟨1, -1, 0⟩ 16 1000 no_band_matches_16

/-- C3 (witness): the no-confirmation status 1 (classified from 25 ticks)
commits in a single window from the initial state, setting
`gate_status_lastupdate`, clearing `gate_status_tobeconfirmed` and sending
the first-occurrence notification. -/
theorem claim_C3_witness :
    (gateCycle ⟨0, -1, 3⟩ 25 7).1.gate_status = classify 25 ∧
      (gateCycle ⟨0, -1, 3⟩ 25 7).1.gate_status_lastupdate = 7 ∧
      (gateCycle ⟨0, -1, 3⟩ 25 7).1.gate_status_tobeconfirmed = -1 ∧
      (gateCycle ⟨0, -1, 3⟩ 25 7).2 =
        some (gate_status_string.getD (classify 25) "") :=
  claim_C3_unconfirmed_commit ⟨0, -1, 3⟩ 25 7 (by decide) (by decide)

/-- C6 (witness): with current status 1 (cooldown 300 s, last update 0), the
repeat notification fires at `now = 300` and not at `now = 299`; and a
committed change to status 1 notifies immediately at `now = 0`. -/
theorem claim_C6_witness :
    gateCycle ⟨1, -1, 0⟩ 25 300 = (⟨1, -1, 300⟩, some "Gate still OPEN") ∧
      gateCycle ⟨1, -1, 0⟩ 25 299 = (⟨1, -1, 0⟩, none) ∧
      (gateCycle ⟨0, -1, 0⟩ 25 0).2 = some "Gate OPEN" := by
  refine ⟨?_, ?_, ?_⟩
  · have h := (claim_C6_alert_throttling ⟨1, -1, 0⟩ 25 300).1 (by decide)
    rw [h.1 (by decide)]
    decide
  · have h := (claim_C6_alert_throttling ⟨1, -1, 0⟩ 25 299).1 (by decide)
    rw [h.2 (by decide)]
  · have h := (claim_C6_alert_throttling ⟨0, -1, 0⟩ 25 0).2 (by decide) (by decide)
    rw [h]
    decide

/-- C8 (witness): status 0 (classified from 0 ticks) is non-reportable, and a
cycle classifying to it sends no notification even after an arbitrarily long
quiet period. -/
theorem claim_C8_witness :
    gate_status_report.getD (classify 0) false = false ∧
      (gateCycle ⟨1, -1, 0⟩ 0 1000000).2 = none :=
  ⟨by decide, claim_C8_nonalertable_no_alert ⟨1, -1, 0⟩ 0 1000000 (by decide)⟩

/-- C10 (witness): the invariant at the initial state and after one concrete
cycle committing status 1. -/
theorem claim_C10_witness :
    StateInv ⟨0, -1, 5⟩ ∧ StateInv (gateCycle ⟨0, -1, 0⟩ 25 7).1 :=
  ⟨claim_C10_pending_invariant.1 5,
   claim_C10_pending_invariant.2.1 ⟨0, -1, 0⟩ 25 7 ⟨Or.inl rfl, by decide⟩⟩
